import Mathlib

/-
  Verification of the log-error crate: an extension trait LogError that logs
  the failure of a Result or Option value at a chosen severity and converts
  the value into an Option.

  Shallow embedding notes.
  The Rust trait LogError has one required method, log_level_with, and five
  default methods delegating to it.  Side effects are made explicit: every
  operation returns an Outcome holding the returned Option, the list of log
  records handed to the logger sink, and the list of arguments the format
  callback was invoked with (so invocation counts are observable).  The
  caller location captured by the track_caller attribute is threaded as an
  explicit Location argument.  The Display and Debug renderings required by
  the convenience methods are passed as explicit functions from the failure
  payload to String.
-/

namespace LogError

/-- Severity levels of the log crate, as used by this library. -/
inductive Level where
  | Error
  | Warn
  | Info
  | Debug
  | Trace
  deriving DecidableEq, Repr

/-- A caller source location, as captured by the track_caller attribute:
the file path and the line number of the call site. -/
structure Location where
  file : String
  line : Nat
  deriving DecidableEq, Repr

/-- One log record handed to the logger sink: built in log_message with
the message text, the severity, the caller file, the caller line, and a
module path derived from the caller file. -/
structure Record where
  msg : String
  level : Level
  file : String
  line : Nat
  module : String
  deriving DecidableEq, Repr

/-- The separator test used in log_message: the closure passed to rfind,
true on a forward slash or a backslash. -/
def isSep (c : Char) : Bool :=
  c = '/' || c = '\\'

/-- Embedding of String.rfind on the character list of the file path:
the index of the last character satisfying isSep, if any. -/
def rfindSep : List Char → Option Nat
  | [] => none
  | c :: rest =>
    match rfindSep rest with
    | some i => some (i + 1)
    | none => if isSep c then some 0 else none

/-- The start index of the module slice in log_message:
rfind(..).map(1 + x).unwrap_or(0). -/
def moduleStart (l : List Char) : Nat :=
  match rfindSep l with
  | some x => 1 + x
  | none => 0

/-- The module string computed in log_message: the file path sliced from
moduleStart to its end, i.e. the path component after the last separator. -/
def moduleOfFile (file : String) : String :=
  String.mk (file.data.drop (moduleStart file.data))

/-- Embedding of the free function log_message: builds the record handed
to the logger sink from the severity, the message, and the caller location
obtained from Location::caller under track_caller. -/
def log_message (level : Level) (msg : String) (loc : Location) : Record :=
  { msg := msg
    level := level
    file := loc.file
    line := loc.line
    module := moduleOfFile loc.file }

/-- The observable outcome of one logging operation: the returned Option,
the log records emitted to the sink (in order), and the arguments the
format callback was invoked with (in order). -/
structure Outcome (T E : Type) where
  result : Option T
  emitted : List Record
  fmtCalls : List E

/-- The Rust Result type the trait is implemented for. -/
inductive Result (T E : Type) where
  | ok (v : T)
  | err (e : E)

/-- Embedding of log_level_with from the LogError impl for Result:
on Ok the value is returned unchanged with no side effect; on Err the
callback is invoked once on the error and one record is emitted. -/
def Result.log_level_with (self : Result T E) (level : Level)
    (cb : E → String) (loc : Location) : Outcome T E :=
  match self with
  | .ok res => ⟨some res, [], []⟩
  | .err e => ⟨none, [log_message level (cb e) loc], [e]⟩

/-- Default method log_error_with: delegates to log_level_with at Error. -/
def Result.log_error_with (self : Result T E) (cb : E → String)
    (loc : Location) : Outcome T E :=
  self.log_level_with Level.Error cb loc

/-- Default method log_warn_with: delegates to log_level_with at Warn. -/
def Result.log_warn_with (self : Result T E) (cb : E → String)
    (loc : Location) : Outcome T E :=
  self.log_level_with Level.Warn cb loc

/-- Default method log_error: formats the message as the prefix, a colon
and a space, then the Display rendering of the error. -/
def Result.log_error (self : Result T E) (msg : String)
    (display : E → String) (loc : Location) : Outcome T E :=
  self.log_error_with (fun err => msg ++ ": " ++ display err) loc

/-- Default method log_error_detail: formats the message as the prefix, a
colon and a space, then the alternate Debug rendering of the error. -/
def Result.log_error_detail (self : Result T E) (msg : String)
    (debugAlt : E → String) (loc : Location) : Outcome T E :=
  self.log_error_with (fun err => msg ++ ": " ++ debugAlt err) loc

/-- Default method log_warn: like log_error but at Warn severity. -/
def Result.log_warn (self : Result T E) (msg : String)
    (display : E → String) (loc : Location) : Outcome T E :=
  self.log_warn_with (fun err => msg ++ ": " ++ display err) loc

/-- Default method log_warn_detail: like log_error_detail but at Warn. -/
def Result.log_warn_detail (self : Result T E) (msg : String)
    (debugAlt : E → String) (loc : Location) : Outcome T E :=
  self.log_warn_with (fun err => msg ++ ": " ++ debugAlt err) loc

/-- Embedding of log_level_with from the LogError impl for Option: the
failure payload type is the static string type and the payload passed to
the callback on None is the literal string None. -/
def Option.log_level_with (self : Option T) (level : Level)
    (cb : String → String) (loc : Location) : Outcome T String :=
  match self with
  | some res => ⟨some res, [], []⟩
  | none => ⟨none, [log_message level (cb "None") loc], ["None"]⟩

/-- Default method log_error_with for the Option impl. -/
def Option.log_error_with (self : Option T) (cb : String → String)
    (loc : Location) : Outcome T String :=
  Option.log_level_with self Level.Error cb loc

/-- Default method log_warn_with for the Option impl. -/
def Option.log_warn_with (self : Option T) (cb : String → String)
    (loc : Location) : Outcome T String :=
  Option.log_level_with self Level.Warn cb loc

/-- Default method log_error for the Option impl. -/
def Option.log_error (self : Option T) (msg : String)
    (display : String → String) (loc : Location) : Outcome T String :=
  Option.log_error_with self (fun err => msg ++ ": " ++ display err) loc

/-- Default method log_error_detail for the Option impl. -/
def Option.log_error_detail (self : Option T) (msg : String)
    (debugAlt : String → String) (loc : Location) : Outcome T String :=
  Option.log_error_with self (fun err => msg ++ ": " ++ debugAlt err) loc

/-- Default method log_warn for the Option impl. -/
def Option.log_warn (self : Option T) (msg : String)
    (display : String → String) (loc : Location) : Outcome T String :=
  Option.log_warn_with self (fun err => msg ++ ": " ++ display err) loc

/-- Default method log_warn_detail for the Option impl. -/
def Option.log_warn_detail (self : Option T) (msg : String)
    (debugAlt : String → String) (loc : Location) : Outcome T String :=
  Option.log_warn_with self (fun err => msg ++ ": " ++ debugAlt err) loc

/-- If rfindSep returns an index, that index is within the list. -/
theorem rfindSep_lt_length {l : List Char} {i : Nat} (h : rfindSep l = some i) :
    i < l.length := by
  induction l generalizing i with
  | nil => simp [rfindSep] at h
  | cons c rest ih =>
    simp only [rfindSep] at h
    cases hr : rfindSep rest with
    | some j =>
      rw [hr] at h
      cases h
      exact Nat.succ_lt_succ (ih hr)
    | none =>
      rw [hr] at h
      by_cases hs : isSep c
      · simp [hs] at h
        cases h
        exact Nat.succ_pos _
      · simp [hs] at h

/-- The module slice in log_message always starts within the file path. -/
theorem moduleStart_le_length (l : List Char) : moduleStart l ≤ l.length := by
  unfold moduleStart
  cases hr : rfindSep l with
  | some x =>
    have hx := rfindSep_lt_length hr
    show 1 + x ≤ l.length
    omega
  | none =>
    show 0 ≤ l.length
    exact Nat.zero_le _

/-- C1: for every success input, whether Ok for the Result impl or some
for the Option impl, and every severity, log_level_with returns the
original wrapped value as Present, invokes the format callback zero times
and emits zero log records. -/
theorem C1_success_identity_no_side_effects {T E : Type} (v : T) (level : Level)
    (cbR : E → String) (cbO : String → String) (loc : Location) :
    Result.log_level_with (Result.ok v : Result T E) level cbR loc
      = ⟨some v, [], []⟩ ∧
    Option.log_level_with (some v) level cbO loc = ⟨some v, [], []⟩ :=
  ⟨rfl, rfl⟩

/-- C2: for every failure input, whether Err for the Result impl or none
for the Option impl, and every severity, log_level_with returns Absent,
invokes the format callback exactly once on the failure payload, and
emits exactly one record whose severity is the given level. -/
theorem C2_failure_one_call_one_record {T E : Type} (e : E) (level : Level)
    (cbR : E → String) (cbO : String → String) (loc : Location) :
    Result.log_level_with (Result.err e : Result T E) level cbR loc
      = ⟨none, [log_message level (cbR e) loc], [e]⟩ ∧
    (log_message level (cbR e) loc).level = level ∧
    Option.log_level_with (none : Option T) level cbO loc
      = ⟨none, [log_message level (cbO "None") loc], ["None"]⟩ ∧
    (log_message level (cbO "None") loc).level = level :=
  ⟨rfl, rfl, rfl, rfl⟩

/-- C3: for the Option impl, whenever the input is none, the payload the
format callback is invoked with is exactly the literal string None, for
every callback and every severity, and the single emitted record carries
the callback applied to that literal. -/
theorem C3_option_payload_is_none_literal {T : Type} (level : Level)
    (cb : String → String) (loc : Location) :
    (Option.log_level_with (none : Option T) level cb loc).fmtCalls = ["None"] ∧
    (Option.log_level_with (none : Option T) level cb loc).emitted
      = [log_message level (cb "None") loc] :=
  ⟨rfl, rfl⟩

/-- C4: log_error and log_warn on a failure input emit exactly one record
whose message is the prefix, a colon and a space, then the Display
rendering of the payload; log_error emits at Error, log_warn at Warn; in
particular with prefix ctx and a payload displayed as boom the message is
exactly the string of ctx, colon, space, boom. -/
theorem C4_prefix_display_message {T E : Type} (e : E) (msg : String)
    (display : E → String) (loc : Location) :
    (Result.log_error (Result.err e : Result T E) msg display loc).emitted.map Record.msg
      = [msg ++ ": " ++ display e] ∧
    (Result.log_warn (Result.err e : Result T E) msg display loc).emitted.map Record.msg
      = [msg ++ ": " ++ display e] ∧
    (Result.log_error (Result.err e : Result T E) msg display loc).emitted.map Record.level
      = [Level.Error] ∧
    (Result.log_warn (Result.err e : Result T E) msg display loc).emitted.map Record.level
      = [Level.Warn] ∧
    (Result.log_error (Result.err 0 : Result Nat Nat) "ctx" (fun _ => "boom")
        loc).emitted.map Record.msg = ["ctx: boom"] := by
  refine ⟨rfl, rfl, rfl, rfl, ?_⟩
  simp [Result.log_error, Result.log_error_with, Result.log_level_with, log_message]

/-- C5: log_error_detail and log_warn_detail on a failure input emit
exactly one record whose message is the prefix, a colon and a space, then
the alternate Debug rendering of the payload; in particular with prefix
ctx and a payload whose dump is the string Err\x7bcode=5\x7d the message
is exactly ctx, colon, space, then that dump. -/
theorem C5_prefix_debug_message {T E : Type} (e : E) (msg : String)
    (debugAlt : E → String) (loc : Location) :
    (Result.log_error_detail (Result.err e : Result T E) msg debugAlt
        loc).emitted.map Record.msg = [msg ++ ": " ++ debugAlt e] ∧
    (Result.log_warn_detail (Result.err e : Result T E) msg debugAlt
        loc).emitted.map Record.msg = [msg ++ ": " ++ debugAlt e] ∧
    (Result.log_error_detail (Result.err e : Result T E) msg debugAlt
        loc).emitted.map Record.level = [Level.Error] ∧
    (Result.log_warn_detail (Result.err e : Result T E) msg debugAlt
        loc).emitted.map Record.level = [Level.Warn] ∧
    (Result.log_error_detail (Result.err 0 : Result Nat Nat) "ctx"
        (fun _ => "Err\x7bcode=5\x7d") loc).emitted.map Record.msg
      = ["ctx: Err\x7bcode=5\x7d"] := by
  refine ⟨rfl, rfl, rfl, rfl, ?_⟩
  simp [Result.log_error_detail, Result.log_error_with, Result.log_level_with, log_message]

/-- C6: for every one of the operations, on both the Result impl and the
Option impl, the format callback is invoked at most once per call, and on
a success input it is invoked zero times. -/
theorem C6_format_at_most_once_never_on_success {T E : Type}
    (self : Result T E) (o : Option T) (v : T) (level : Level)
    (cb : E → String) (cbO : String → String) (msg : String)
    (display debugAlt : E → String) (displayO debugO : String → String)
    (loc : Location) :
    (Result.log_level_with self level cb loc).fmtCalls.length ≤ 1 ∧
    (Result.log_error_with self cb loc).fmtCalls.length ≤ 1 ∧
    (Result.log_warn_with self cb loc).fmtCalls.length ≤ 1 ∧
    (Result.log_error self msg display loc).fmtCalls.length ≤ 1 ∧
    (Result.log_warn self msg display loc).fmtCalls.length ≤ 1 ∧
    (Result.log_error_detail self msg debugAlt loc).fmtCalls.length ≤ 1 ∧
    (Result.log_warn_detail self msg debugAlt loc).fmtCalls.length ≤ 1 ∧
    (Option.log_level_with o level cbO loc).fmtCalls.length ≤ 1 ∧
    (Option.log_error_with o cbO loc).fmtCalls.length ≤ 1 ∧
    (Option.log_warn_with o cbO loc).fmtCalls.length ≤ 1 ∧
    (Option.log_error o msg displayO loc).fmtCalls.length ≤ 1 ∧
    (Option.log_warn o msg displayO loc).fmtCalls.length ≤ 1 ∧
    (Option.log_error_detail o msg debugO loc).fmtCalls.length ≤ 1 ∧
    (Option.log_warn_detail o msg debugO loc).fmtCalls.length ≤ 1 ∧
    (Result.log_level_with (Result.ok v : Result T E) level cb loc).fmtCalls = [] ∧
    (Result.log_error_with (Result.ok v : Result T E) cb loc).fmtCalls = [] ∧
    (Result.log_warn_with (Result.ok v : Result T E) cb loc).fmtCalls = [] ∧
    (Result.log_error (Result.ok v : Result T E) msg display loc).fmtCalls = [] ∧
    (Result.log_warn (Result.ok v : Result T E) msg display loc).fmtCalls = [] ∧
    (Result.log_error_detail (Result.ok v : Result T E) msg debugAlt loc).fmtCalls = [] ∧
    (Result.log_warn_detail (Result.ok v : Result T E) msg debugAlt loc).fmtCalls = [] ∧
    (Option.log_level_with (some v) level cbO loc).fmtCalls = [] ∧
    (Option.log_error_with (some v) cbO loc).fmtCalls = [] ∧
    (Option.log_warn_with (some v) cbO loc).fmtCalls = [] ∧
    (Option.log_error (some v) msg displayO loc).fmtCalls = [] ∧
    (Option.log_warn (some v) msg displayO loc).fmtCalls = [] ∧
    (Option.log_error_detail (some v) msg debugO loc).fmtCalls = [] ∧
    (Option.log_warn_detail (some v) msg debugO loc).fmtCalls = [] := by
  cases self <;> cases o <;>
    simp [Result.log_level_with, Result.log_error_with, Result.log_warn_with,
      Result.log_error, Result.log_warn, Result.log_error_detail,
      Result.log_warn_detail, Option.log_level_with, Option.log_error_with,
      Option.log_warn_with, Option.log_error, Option.log_warn,
      Option.log_error_detail, Option.log_warn_detail]

/-- C7: every record built by log_message carries the message text, the
given severity, and the file and line of the caller location, together
with a module identifier derived from the caller file; the operations
thread the caller location through unchanged, so an emitted record shows
the call site of the operation, not a location of the helper itself. -/
theorem C7_record_carries_call_site {T E : Type} (e : E) (level : Level)
    (msg : String) (cb : E → String) (loc : Location) :
    log_message level msg loc
      = ⟨msg, level, loc.file, loc.line, moduleOfFile loc.file⟩ ∧
    (Result.log_level_with (Result.err e : Result T E) level cb loc).emitted.map Record.file
      = [loc.file] ∧
    (Result.log_level_with (Result.err e : Result T E) level cb loc).emitted.map Record.line
      = [loc.line] ∧
    (Result.log_error_with (Result.err e : Result T E) cb loc).emitted.map Record.file
      = [loc.file] ∧
    (Option.log_level_with (none : Option T) level (fun s => s) loc).emitted.map Record.file
      = [loc.file] :=
  ⟨rfl, rfl, rfl, rfl, rfl⟩

/-- C8: the operations are total functions of their inputs; in particular
the slice taken inside log_message is always in bounds: its start index
never exceeds the length of the caller file path, and the module field is
exactly the file path with that many leading characters dropped. -/
theorem C8_total_slice_in_bounds (level : Level) (msg : String) (loc : Location) :
    moduleStart loc.file.data ≤ loc.file.data.length ∧
    (log_message level msg loc).module.data
      = loc.file.data.drop (moduleStart loc.file.data) :=
  ⟨moduleStart_le_length loc.file.data, rfl⟩

/-- C9: the emitted message text is a deterministic function of the
failure payload and the formatting arguments: two calls on equal failure
payloads with the same callback, prefix and rendering functions, even
from different call sites, emit log records with identical message text,
for each of the operations. -/
theorem C9_equal_payloads_equal_messages {T E : Type} (e1 e2 : E)
    (level : Level) (cb : E → String) (msg : String)
    (display debugAlt : E → String) (loc1 loc2 : Location) (h : e1 = e2) :
    (Result.log_level_with (Result.err e1 : Result T E) level cb loc1).emitted.map Record.msg
      = (Result.log_level_with (Result.err e2 : Result T E) level cb loc2).emitted.map Record.msg ∧
    (Result.log_error_with (Result.err e1 : Result T E) cb loc1).emitted.map Record.msg
      = (Result.log_error_with (Result.err e2 : Result T E) cb loc2).emitted.map Record.msg ∧
    (Result.log_warn_with (Result.err e1 : Result T E) cb loc1).emitted.map Record.msg
      = (Result.log_warn_with (Result.err e2 : Result T E) cb loc2).emitted.map Record.msg ∧
    (Result.log_error (Result.err e1 : Result T E) msg display loc1).emitted.map Record.msg
      = (Result.log_error (Result.err e2 : Result T E) msg display loc2).emitted.map Record.msg ∧
    (Result.log_warn (Result.err e1 : Result T E) msg display loc1).emitted.map Record.msg
      = (Result.log_warn (Result.err e2 : Result T E) msg display loc2).emitted.map Record.msg ∧
    (Result.log_error_detail (Result.err e1 : Result T E) msg debugAlt loc1).emitted.map Record.msg
      = (Result.log_error_detail (Result.err e2 : Result T E) msg debugAlt loc2).emitted.map Record.msg ∧
    (Result.log_warn_detail (Result.err e1 : Result T E) msg debugAlt loc1).emitted.map Record.msg
      = (Result.log_warn_detail (Result.err e2 : Result T E) msg debugAlt loc2).emitted.map Record.msg := by
  subst h
  exact ⟨rfl, rfl, rfl, rfl, rfl, rfl, rfl⟩

/-- Witness for C9 at concrete inputs: payload 7 logged from two distinct
call sites yields identical message lists for every operation. -/
theorem C9_equal_payloads_equal_messages_witness :
    (Result.log_level_with (Result.err 7 : Result Nat Nat) Level.Warn
        (fun n => toString n) ⟨"a.rs", 1⟩).emitted.map Record.msg
      = (Result.log_level_with (Result.err 7 : Result Nat Nat) Level.Warn
        (fun n => toString n) ⟨"b/c.rs", 2⟩).emitted.map Record.msg ∧
    (Result.log_error_with (Result.err 7 : Result Nat Nat)
        (fun n => toString n) ⟨"a.rs", 1⟩).emitted.map Record.msg
      = (Result.log_error_with (Result.err 7 : Result Nat Nat)
        (fun n => toString n) ⟨"b/c.rs", 2⟩).emitted.map Record.msg ∧
    (Result.log_warn_with (Result.err 7 : Result Nat Nat)
        (fun n => toString n) ⟨"a.rs", 1⟩).emitted.map Record.msg
      = (Result.log_warn_with (Result.err 7 : Result Nat Nat)
        (fun n => toString n) ⟨"b/c.rs", 2⟩).emitted.map Record.msg ∧
    (Result.log_error (Result.err 7 : Result Nat Nat) "ctx"
        (fun n => toString n) ⟨"a.rs", 1⟩).emitted.map Record.msg
      = (Result.log_error (Result.err 7 : Result Nat Nat) "ctx"
        (fun n => toString n) ⟨"b/c.rs", 2⟩).emitted.map Record.msg ∧
    (Result.log_warn (Result.err 7 : Result Nat Nat) "ctx"
        (fun n => toString n) ⟨"a.rs", 1⟩).emitted.map Record.msg
      = (Result.log_warn (Result.err 7 : Result Nat Nat) "ctx"
        (fun n => toString n) ⟨"b/c.rs", 2⟩).emitted.map Record.msg ∧
    (Result.log_error_detail (Result.err 7 : Result Nat Nat) "ctx"
        (fun n => toString n) ⟨"a.rs", 1⟩).emitted.map Record.msg
      = (Result.log_error_detail (Result.err 7 : Result Nat Nat) "ctx"
        (fun n => toString n) ⟨"b/c.rs", 2⟩).emitted.map Record.msg ∧
    (Result.log_warn_detail (Result.err 7 : Result Nat Nat) "ctx"
        (fun n => toString n) ⟨"a.rs", 1⟩).emitted.map Record.msg
      = (Result.log_warn_detail (Result.err 7 : Result Nat Nat) "ctx"
        (fun n => toString n) ⟨"b/c.rs", 2⟩).emitted.map Record.msg :=
  C9_equal_payloads_equal_messages 7 7 Level.Warn (fun n => toString n) "ctx"
    (fun n => toString n) (fun n => toString n) ⟨"a.rs", 1⟩ ⟨"b/c.rs", 2⟩ rfl

/-- C10: for the Option impl, log_level_with acts as the identity on the
value: the returned Option always equals the input Option, for every
input, severity and callback. -/
theorem C10_option_result_identity {T : Type} (self : Option T)
    (level : Level) (cb : String → String) (loc : Location) :
    (Option.log_level_with self level cb loc).result = self := by
  cases self <;> rfl

end LogError
